import Mathlib

/-!
Verification of the Bronze Star inbound-email lead parser (`src/main.py`).

The Python source is shallowly embedded: each helper function of the source
is translated to an executable Lean definition over `String` / `List Char`.
Python regular-expression operations are modelled by explicit scanning
functions whose semantics follow the CPython regex engine (leftmost match,
greedy quantifiers with backtracking) on the concrete patterns that occur in
the source.  ASCII semantics are assumed throughout (the payloads and all
patterns in the source are ASCII).
-/

/-! ## Python string primitives -/

/-- The ASCII whitespace characters recognised by Python's `str.strip()` and
by the regex class `\s`: space, tab, newline, carriage return, vertical tab,
form feed. -/
def isPyWs (c : Char) : Bool :=
  c = ' ' || c = '\t' || c = '\n' || c = '\r' || c = '\x0b' || c = '\x0c'

/-- Drop a trailing run of characters satisfying `p` (helper for `strip`). -/
def dropTrailing (p : Char → Bool) : List Char → List Char
  | [] => []
  | c :: rest =>
    let r := dropTrailing p rest
    if r.isEmpty then (if p c then [] else [c]) else c :: r

/-- Python `str.strip()` on a character list: remove leading and trailing
whitespace. -/
def pyStripList (l : List Char) : List Char :=
  dropTrailing isPyWs (l.dropWhile isPyWs)

/-- Python `str.strip()`. -/
def pyStrip (s : String) : String :=
  ⟨pyStripList s.data⟩

/-- Python `str.split(sep)` for a one-character separator (structural, so
that it evaluates inside the kernel): splitting the empty string gives
`[""]`, separators at the ends give empty segments. -/
def splitChar (sep : Char) : List Char → List (List Char)
  | [] => [[]]
  | c :: rest =>
    if c = sep then [] :: splitChar sep rest
    else
      match splitChar sep rest with
      | [] => [[c]]
      | h :: t => (c :: h) :: t

def pySplit (sep : Char) (s : String) : List String :=
  (splitChar sep s.data).map (fun l => ⟨l⟩)

/-! ## `_norm_whitespace` (src/main.py lines 48-52)

```python
def _norm_whitespace(s: str) -> str:
    s = s.replace("\r\n", "\n").replace("\r", "\n")
    s = re.sub(r"\n{3,}", "\n\n", s)
    return s.strip()
```
-/

/-- The combined effect of `s.replace("\r\n", "\n").replace("\r", "\n")`:
the first global replace rewrites every (non-overlapping, and for this
pattern automatically disjoint) `"\r\n"` pair to `"\n"`, the second rewrites
every remaining `"\r"` to `"\n"`.  Jointly: a `"\n"` directly following a
`"\r"` is deleted and every `"\r"` becomes `"\n"`, realised here as one
two-character-lookahead scan. -/
def crlfToLf : List Char → List Char
  | [] => []
  | [c] => if c = '\r' then ['\n'] else [c]
  | c :: d :: rest =>
    if c = '\r' then
      if d = '\n' then '\n' :: crlfToLf rest
      else '\n' :: crlfToLf (d :: rest)
    else c :: crlfToLf (d :: rest)

/-- `re.sub(r"\n{3,}", "\n\n", s)`: the regex greedily matches each maximal
run of at least three newlines and replaces it by exactly two, i.e. every
run of `k ≥ 3` newlines is capped at two.  `run` counts the newlines just
emitted. -/
def collapseGo : Nat → List Char → List Char
  | _, [] => []
  | run, c :: rest =>
    if c = '\n' then
      if run ≥ 2 then collapseGo (run + 1) rest
      else '\n' :: collapseGo (run + 1) rest
    else c :: collapseGo 0 rest

/-- List-level core of `_norm_whitespace`. -/
def normList (l : List Char) : List Char :=
  pyStripList (collapseGo 0 (crlfToLf l))

/-- `_norm_whitespace` from src/main.py. -/
def _norm_whitespace (s : String) : String :=
  ⟨normList s.data⟩

/-! ### Lemmas towards idempotence of `_norm_whitespace` -/

/-- Two-step list induction matching the lookahead recursion of
`crlfToLf`. -/
theorem twoStepInduction {P : List Char → Prop} (h0 : P [])
    (h1 : ∀ c, P [c]) (h2 : ∀ c d rest, P rest → P (d :: rest) → P (c :: d :: rest)) :
    ∀ l, P l := by
  have key : ∀ l, P l ∧ (∀ c, P (c :: l)) := by
    intro l
    induction l with
    | nil => exact ⟨h0, h1⟩
    | cons d rest ih => exact ⟨ih.2 d, fun c => h2 c d rest ih.1 (ih.2 d)⟩
  exact fun l => (key l).1

theorem crlfToLf_no_cr : ∀ l, ∀ c ∈ crlfToLf l, c ≠ '\r' := by
  apply twoStepInduction
  · intro c hc
    simp [crlfToLf] at hc
  · intro c x hx
    by_cases h : c = '\r'
    · simp [crlfToLf, h] at hx
      simp [hx]
    · simp [crlfToLf, h] at hx
      simp [hx, h]
  · intro c d rest ih1 ih2 x hx
    by_cases h : c = '\r'
    · by_cases h' : d = '\n'
      · simp [crlfToLf, h, h'] at hx
        rcases hx with hx | hx
        · simp [hx]
        · exact ih1 x hx
      · simp [crlfToLf, h, h'] at hx
        rcases hx with hx | hx
        · simp [hx]
        · exact ih2 x hx
    · simp [crlfToLf, h] at hx
      rcases hx with hx | hx
      · rw [hx]; exact h
      · exact ih2 x hx

theorem crlfToLf_id_of_no_cr : ∀ l, (∀ c ∈ l, c ≠ '\r') → crlfToLf l = l := by
  apply twoStepInduction
  · intro _; rfl
  · intro c h
    have hc : c ≠ '\r' := h c (by simp)
    simp [crlfToLf, hc]
  · intro c d rest ih1 ih2 h
    have hc : c ≠ '\r' := h c (by simp)
    have hrest : ∀ x ∈ d :: rest, x ≠ '\r' := fun x hx => h x (List.mem_cons_of_mem c hx)
    simp [crlfToLf, hc, ih2 hrest]

theorem collapseGo_subset : ∀ (l : List Char) (k : Nat), ∀ c ∈ collapseGo k l, c ∈ l := by
  intro l
  induction l with
  | nil =>
    intro k c hc
    simp [collapseGo] at hc
  | cons a rest ih =>
    intro k c hc
    by_cases h : a = '\n'
    · subst h
      by_cases hk : k ≥ 2
      · simp only [collapseGo, if_pos rfl, if_pos hk] at hc
        exact List.mem_cons_of_mem _ (ih _ c hc)
      · simp only [collapseGo, if_pos rfl, if_neg hk] at hc
        rcases List.mem_cons.mp hc with hc | hc
        · simp [hc]
        · exact List.mem_cons_of_mem _ (ih _ c hc)
    · simp only [collapseGo, if_neg h] at hc
      rcases List.mem_cons.mp hc with hc | hc
      · simp [hc]
      · exact List.mem_cons_of_mem _ (ih _ c hc)

theorem dropWhile_subset (p : Char → Bool) (l : List Char) :
    ∀ c ∈ l.dropWhile p, c ∈ l := by
  induction l with
  | nil =>
    intro c hc
    simp [List.dropWhile] at hc
  | cons a rest ih =>
    intro c hc
    by_cases h : p a
    · rw [List.dropWhile_cons_of_pos h] at hc
      exact List.mem_cons_of_mem _ (ih c hc)
    · rw [List.dropWhile_cons_of_neg h] at hc
      exact hc

/-- `dropTrailing` removes a suffix: its result is a prefix of the input. -/
theorem dropTrailing_eq_append (p : Char → Bool) :
    ∀ l : List Char, ∃ l₂, l = dropTrailing p l ++ l₂ := by
  intro l
  induction l with
  | nil => exact ⟨[], rfl⟩
  | cons c rest ih =>
    rcases ih with ⟨l₂, hl₂⟩
    by_cases hr : (dropTrailing p rest).isEmpty
    · by_cases hp : p c
      · refine ⟨c :: rest, ?_⟩
        simp [dropTrailing, hr, hp]
      · refine ⟨rest, ?_⟩
        simp [dropTrailing, hr, hp]
    · refine ⟨l₂, ?_⟩
      simp only [dropTrailing, if_neg hr]
      rw [List.cons_append]
      exact congrArg (c :: ·) hl₂

theorem dropTrailing_subset (p : Char → Bool) (l : List Char) :
    ∀ c ∈ dropTrailing p l, c ∈ l := by
  rcases dropTrailing_eq_append p l with ⟨l₂, hl₂⟩
  intro c hc
  rw [hl₂]
  exact List.mem_append_left _ hc

theorem pyStripList_subset (l : List Char) : ∀ c ∈ pyStripList l, c ∈ l := by
  intro c hc
  exact dropWhile_subset _ _ c (dropTrailing_subset _ _ c hc)

/-- The run-boundedness invariant: every maximal newline run has length at
most two, where `k` is the length of the newline run immediately preceding
the list. -/
def okRuns : Nat → List Char → Bool
  | _, [] => true
  | k, c :: rest => if c = '\n' then decide (k < 2) && okRuns (k + 1) rest else okRuns 0 rest

theorem okRuns_collapseGo : ∀ (l : List Char) (k : Nat),
    okRuns (min k 2) (collapseGo k l) = true := by
  intro l
  induction l with
  | nil =>
    intro k
    simp [collapseGo, okRuns]
  | cons a rest ih =>
    intro k
    by_cases h : a = '\n'
    · subst h
      by_cases hk : k ≥ 2
      · have hmin : min k 2 = 2 := by omega
        have hmin' : min (k + 1) 2 = 2 := by omega
        rw [hmin]
        simp only [collapseGo, if_true, if_pos hk]
        have := ih (k + 1)
        rwa [hmin'] at this
      · have hk2 : k < 2 := by omega
        have hmin : min k 2 = k := by omega
        have hmin' : min (k + 1) 2 = k + 1 := by omega
        rw [hmin]
        simp only [collapseGo, if_true, if_neg hk]
        simp only [okRuns, if_true]
        have := ih (k + 1)
        rw [hmin'] at this
        simp [this, hk2]
    · simp only [collapseGo, if_neg h]
      simp only [okRuns, if_neg h]
      have := ih 0
      simpa using this

theorem collapseGo_id_of_okRuns : ∀ (l : List Char) (k : Nat),
    okRuns k l = true → collapseGo k l = l := by
  intro l
  induction l with
  | nil => intro k _; rfl
  | cons a rest ih =>
    intro k hok
    by_cases h : a = '\n'
    · subst h
      simp only [okRuns, if_true, Bool.and_eq_true, decide_eq_true_eq] at hok
      have hk : ¬ k ≥ 2 := by omega
      simp only [collapseGo, if_true, if_neg hk]
      rw [ih (k + 1) hok.2]
    · simp only [okRuns, if_neg h] at hok
      simp only [collapseGo, if_neg h]
      rw [ih 0 hok]

theorem okRuns_append_left : ∀ (l₁ l₂ : List Char) (k : Nat),
    okRuns k (l₁ ++ l₂) = true → okRuns k l₁ = true := by
  intro l₁
  induction l₁ with
  | nil => intro l₂ k _; rfl
  | cons a rest ih =>
    intro l₂ k hok
    by_cases h : a = '\n'
    · subst h
      simp only [List.cons_append, okRuns, if_true, Bool.and_eq_true] at hok ⊢
      exact ⟨hok.1, ih l₂ (k + 1) hok.2⟩
    · simp only [List.cons_append, okRuns, if_neg h] at hok ⊢
      exact ih l₂ 0 hok

theorem okRuns_dropWhile : ∀ (l : List Char) (k : Nat),
    okRuns k l = true → okRuns 0 (l.dropWhile isPyWs) = true := by
  intro l
  induction l with
  | nil => intro k _; rfl
  | cons a rest ih =>
    intro k hok
    by_cases hw : isPyWs a
    · rw [List.dropWhile_cons_of_pos hw]
      by_cases h : a = '\n'
      · subst h
        simp only [okRuns, if_true, Bool.and_eq_true] at hok
        exact ih (k + 1) hok.2
      · simp only [okRuns, if_neg h] at hok
        exact ih 0 hok
    · rw [List.dropWhile_cons_of_neg hw]
      have h : a ≠ '\n' := by
        intro ha
        apply hw
        simp [isPyWs, ha]
      simp only [okRuns, if_neg h] at hok ⊢
      exact hok

theorem okRuns_pyStripList (l : List Char) (k : Nat) (h : okRuns k l = true) :
    okRuns 0 (pyStripList l) = true := by
  have h1 : okRuns 0 (l.dropWhile isPyWs) = true := okRuns_dropWhile l k h
  rcases dropTrailing_eq_append isPyWs (l.dropWhile isPyWs) with ⟨l₂, hl₂⟩
  rw [hl₂] at h1
  exact okRuns_append_left _ _ _ h1

theorem dropTrailing_idem (p : Char → Bool) :
    ∀ l, dropTrailing p (dropTrailing p l) = dropTrailing p l := by
  intro l
  induction l with
  | nil => rfl
  | cons c rest ih =>
    by_cases hr : (dropTrailing p rest).isEmpty
    · have hr' : dropTrailing p rest = [] := by
        cases h : dropTrailing p rest
        · rfl
        · rw [h] at hr
          simp at hr
      by_cases hp : p c
      · simp [dropTrailing, hr', hp]
      · simp [dropTrailing, hr', hp]
    · simp only [dropTrailing, ih, if_neg hr]

/-- The result of `dropTrailing` on a cons is empty or keeps the head. -/
theorem dropTrailing_cons_shape (p : Char → Bool) (c : Char) (rest : List Char) :
    dropTrailing p (c :: rest) = [] ∨ ∃ r, dropTrailing p (c :: rest) = c :: r := by
  by_cases hr : (dropTrailing p rest).isEmpty
  · by_cases hp : p c
    · left
      simp [dropTrailing, hr, hp]
    · right
      exact ⟨[], by simp [dropTrailing, hr, hp]⟩
  · right
    exact ⟨dropTrailing p rest, by simp [dropTrailing, hr]⟩

/-- `dropWhile` result is empty or starts with a character failing `p`. -/
theorem dropWhile_shape (p : Char → Bool) (l : List Char) :
    l.dropWhile p = [] ∨ ∃ c r, l.dropWhile p = c :: r ∧ p c = false := by
  induction l with
  | nil => left; rfl
  | cons a rest ih =>
    by_cases h : p a
    · rw [List.dropWhile_cons_of_pos h]
      exact ih
    · right
      exact ⟨a, rest, List.dropWhile_cons_of_neg h, by simpa using h⟩

theorem dropWhile_idem (p : Char → Bool) (l : List Char) :
    (l.dropWhile p).dropWhile p = l.dropWhile p := by
  rcases dropWhile_shape p l with h | ⟨c, r, h, hc⟩
  · rw [h]; rfl
  · rw [h, List.dropWhile_cons_of_neg (by simp [hc])]

theorem pyStripList_idem (l : List Char) : pyStripList (pyStripList l) = pyStripList l := by
  unfold pyStripList
  have hA : (dropTrailing isPyWs (l.dropWhile isPyWs)).dropWhile isPyWs
      = dropTrailing isPyWs (l.dropWhile isPyWs) := by
    rcases dropWhile_shape isPyWs l with h | ⟨c, r, h, hc⟩
    · rw [h]
      rfl
    · rw [h]
      rcases dropTrailing_cons_shape isPyWs c r with h2 | ⟨r', h2⟩
      · rw [h2]; rfl
      · rw [h2, List.dropWhile_cons_of_neg (by simp [hc])]
  rw [hA, dropTrailing_idem]

theorem normList_no_cr (l : List Char) : ∀ c ∈ normList l, c ≠ '\r' := by
  intro c hc
  have h1 : c ∈ collapseGo 0 (crlfToLf l) := pyStripList_subset _ c hc
  have h2 : c ∈ crlfToLf l := collapseGo_subset _ _ c h1
  exact crlfToLf_no_cr _ c h2

theorem normList_okRuns (l : List Char) : okRuns 0 (normList l) = true := by
  have h := okRuns_collapseGo (crlfToLf l) 0
  rw [show min 0 2 = 0 by omega] at h
  exact okRuns_pyStripList _ 0 h

theorem normList_idem (l : List Char) : normList (normList l) = normList l := by
  show pyStripList (collapseGo 0 (crlfToLf (normList l))) = normList l
  rw [crlfToLf_id_of_no_cr _ (normList_no_cr l)]
  rw [collapseGo_id_of_okRuns _ 0 (normList_okRuns l)]
  exact pyStripList_idem _

/-- **C8**. The Text Normalizer `_norm_whitespace` is idempotent: applying it
to its own output yields the same result as applying it once. -/
theorem norm_whitespace_idempotent (s : String) :
    _norm_whitespace (_norm_whitespace s) = _norm_whitespace s := by
  show (⟨normList (normList s.data)⟩ : String) = ⟨normList s.data⟩
  rw [normList_idem]

/-! ## Label extraction (`_extract`, `_extract_any`, src/main.py lines 55-71)

```python
def _extract(text: str, label: str) -> str:
    pattern = rf"(?im)^\s*{re.escape(label)}\s*:\s*(.+?)\s*$"
    m = re.search(pattern, text)
    return m.group(1).strip() if m else ""
```

The multiline case-insensitive regex is modelled line by line: the leftmost
match of a `^`-anchored pattern is the first line that, after optional
leading whitespace, carries the label (case-insensitively), optional
whitespace, a colon, and at least one further character on the same line;
the lazy capture `(.+?)` bracketed by `\s*` and `$`, followed by the
source's `.strip()`, yields the rest of the line with surrounding
whitespace removed.  (One exotic corner of the Python pattern is outside
this model: when everything after the colon on the label line is
whitespace and further lines follow, the `\s*` of the pattern can cross
the newline and capture text from a later line; the model treats such a
line as carrying an empty value.  No input considered here has that
shape.) -/

/-- Case-insensitive (ASCII) prefix removal: if `label` is a prefix of `l`
up to case, return the remainder. -/
def dropLabelCI : List Char → List Char → Option (List Char)
  | [], l => some l
  | _ :: _, [] => none
  | c :: cs, x :: xs => if c.toLower = x.toLower then dropLabelCI cs xs else none

/-- Match one line against `^\s*label\s*:\s*(.+?)\s*$` (case-insensitive)
and return the stripped capture. -/
def matchLabelLine (label line : String) : Option String :=
  match dropLabelCI label.data (line.data.dropWhile isPyWs) with
  | none => none
  | some rest =>
    match rest.dropWhile isPyWs with
    | ':' :: rest2 => if rest2.isEmpty then none else some (pyStrip ⟨rest2⟩)
    | _ => none

/-- `_extract` from src/main.py. -/
def _extract (text label : String) : String :=
  match (pySplit '\n' text).findSome? (matchLabelLine label) with
  | some v => v
  | none => ""

/-- `_extract_any` from src/main.py: first label whose extracted value is
non-empty. -/
def _extract_any (text : String) : List String → String
  | [] => ""
  | lab :: labs =>
    let v := _extract text lab
    if v ≠ "" then v else _extract_any text labs

/-! ## Calendar dates and `datetime.strptime` -/

/-- Gregorian leap year, as implemented by Python's `datetime`. -/
def isLeap (y : Nat) : Bool :=
  y % 4 = 0 && (y % 100 ≠ 0 || y % 400 = 0)

def daysInMonth (y m : Nat) : Nat :=
  if m = 2 then (if isLeap y then 29 else 28)
  else if m = 4 || m = 6 || m = 9 || m = 11 then 30
  else 31

/-- Validity check performed by the `datetime` constructor
(`MINYEAR = 1`, `MAXYEAR = 9999`). -/
def validDate (y m d : Nat) : Bool :=
  1 ≤ y && y ≤ 9999 && 1 ≤ m && m ≤ 12 && 1 ≤ d && d ≤ daysInMonth y m

structure Date where
  y : Nat
  m : Nat
  d : Nat
deriving DecidableEq, Repr

def digitVal (c : Char) : Nat := c.toNat - 48

/-- CPython `_strptime` day pattern `3[01]|[12]\d|0[1-9]|[1-9]| [1-9]`,
required here to consume a whole slash-separated segment. -/
def dayTokenL : List Char → Option Nat
  | [c] => if c.isDigit && c ≠ '0' then some (digitVal c) else none
  | [a, b] =>
    if a = ' ' then (if b.isDigit && b ≠ '0' then some (digitVal b) else none)
    else if a = '3' then (if b = '0' || b = '1' then some (30 + digitVal b) else none)
    else if (a = '1' || a = '2') && b.isDigit then some (10 * digitVal a + digitVal b)
    else if a = '0' then (if b.isDigit && b ≠ '0' then some (digitVal b) else none)
    else none
  | _ => none

/-- CPython `_strptime` month pattern `1[0-2]|0[1-9]|[1-9]`. -/
def monthTokenL : List Char → Option Nat
  | [c] => if c.isDigit && c ≠ '0' then some (digitVal c) else none
  | [a, b] =>
    if a = '1' then (if b = '0' || b = '1' || b = '2' then some (10 + digitVal b) else none)
    else if a = '0' then (if b.isDigit && b ≠ '0' then some (digitVal b) else none)
    else none
  | _ => none

/-- CPython `_strptime` year pattern `\d\d\d\d` (exactly four digits). -/
def yearTokenL : List Char → Option Nat
  | [a, b, c, d] =>
    if a.isDigit && b.isDigit && c.isDigit && d.isDigit then
      some (1000 * digitVal a + 100 * digitVal b + 10 * digitVal c + digitVal d)
    else none
  | _ => none

/-- `datetime.strptime(s, "%d/%m/%Y")`: the compiled regex is the three
token patterns joined by literal slashes, anchored at the start, with the
whole string required to be consumed; a successful regex match is followed
by the `datetime` constructor's calendar-validity check.  Since none of the
tokens can contain a slash, the match decomposes as `splitOn "/"` into
exactly three full-token segments. -/
def strptime_dmY (s : String) : Option Date :=
  match pySplit '/' s with
  | [a, b, c] =>
    match dayTokenL a.data, monthTokenL b.data, yearTokenL c.data with
    | some d, some m, some y => if validDate y m d then some ⟨y, m, d⟩ else none
    | _, _, _ => none
  | _ => none

/-- `datetime.strptime(s, "%m/%d/%Y")`. -/
def strptime_mdY (s : String) : Option Date :=
  match pySplit '/' s with
  | [a, b, c] =>
    match monthTokenL a.data, dayTokenL b.data, yearTokenL c.data with
    | some m, some d, some y => if validDate y m d then some ⟨y, m, d⟩ else none
    | _, _, _ => none
  | _ => none

/-- `datetime.strptime(s, "%Y/%m/%d")`. -/
def strptime_Ymd (s : String) : Option Date :=
  match pySplit '/' s with
  | [a, b, c] =>
    match yearTokenL a.data, monthTokenL b.data, dayTokenL c.data with
    | some y, some m, some d => if validDate y m d then some ⟨y, m, d⟩ else none
    | _, _, _ => none
  | _ => none

def pad2 (n : Nat) : String :=
  if n < 10 then "0" ++ toString n else toString n

def pad4 (n : Nat) : String :=
  if n < 10 then "000" ++ toString n
  else if n < 100 then "00" ++ toString n
  else if n < 1000 then "0" ++ toString n
  else toString n

/-- `dt.strftime("%m/%d/%Y")`: zero-padded two-digit month and day, the
year written with four digits (all years reached in this program come from
four-digit tokens). -/
def renderMDY (dt : Date) : String :=
  pad2 dt.m ++ "/" ++ pad2 dt.d ++ "/" ++ pad4 dt.y

/-! ## `_parse_move_date` (src/main.py lines 100-136) -/

def moveDateLabels : List String :=
  ["Move date", "Move Date", "Moving date", "Moving Date", "Pickup date", "Pickup Date"]

/-- The labelled raw value: `_extract_any(...)` followed by `.strip()`. -/
def moveDateRaw (text : String) : String :=
  pyStrip (_extract_any text moveDateLabels)

/-- `raw.replace(".", "/").replace("-", "/")` then `re.sub(r"\s+", "", raw)`:
dots and dashes become slashes, all whitespace is removed. -/
def normalizeDateRaw (raw : String) : String :=
  ⟨((raw.data.map (fun c => if c = '.' then '/' else c)).map
      (fun c => if c = '-' then '/' else c)).filter (fun c => !(isPyWs c))⟩

/-- The `for fmt in ("%d/%m/%Y", "%m/%d/%Y", "%Y/%m/%d")` loop: first
format that parses wins. -/
def tryFormats (s : String) : Option Date :=
  match strptime_dmY s with
  | some d => some d
  | none =>
    match strptime_mdY s with
    | some d => some d
    | none => strptime_Ymd s

/-- Match `(\d{1,2})/(\d{1,2})/(\d{4})` at the head of the list.  The
greedy `\d{1,2}` is deterministic here: a two-digit number must be followed
by `/`, and backtracking to one digit would require the second digit to be
a slash, which is impossible; so no alternative needs revisiting. -/
def year4 : List Char → Option Nat
  | a :: b :: c :: d :: _ =>
    if a.isDigit && b.isDigit && c.isDigit && d.isDigit then
      some (1000 * digitVal a + 100 * digitVal b + 10 * digitVal c + digitVal d)
    else none
  | _ => none

/-- Match `\d{1,2}` followed by a literal `/`; return the value and the
remainder after the slash. -/
def num2slash : List Char → Option (Nat × List Char)
  | a :: b :: c :: rest =>
    if a.isDigit then
      if b.isDigit then (if c = '/' then some (10 * digitVal a + digitVal b, rest) else none)
      else if b = '/' then some (digitVal a, c :: rest)
      else none
    else none
  | [a, b] => if a.isDigit && b = '/' then some (digitVal a, []) else none
  | _ => none

def matchDateAt (l : List Char) : Option (Nat × Nat × Nat) :=
  match num2slash l with
  | none => none
  | some (d1, r1) =>
    match num2slash r1 with
    | none => none
    | some (d2, r2) =>
      match year4 r2 with
      | none => none
      | some y => some (d1, d2, y)

/-- `re.search(r"(\d{1,2})/(\d{1,2})/(\d{4})", text)`: leftmost match. -/
def findDateTok : List Char → Option (Nat × Nat × Nat)
  | [] => none
  | c :: rest =>
    match matchDateAt (c :: rest) with
    | some r => some r
    | none => findDateTok rest

/-- `_parse_move_date` from src/main.py. -/
def _parse_move_date (text : String) : String :=
  if moveDateRaw text = "" then ""
  else
    match tryFormats (normalizeDateRaw (moveDateRaw text)) with
    | some dt => renderMDY dt
    | none =>
      match findDateTok text.data with
      | some (d1, d2, y) =>
        -- `dd, mm = (d1, d2) if int(d1) > 12 else (d2, d1)`, then the
        -- datetime constructor's validity check, inlined per branch
        if d1 > 12 then
          (if validDate y d2 d1 then renderMDY ⟨y, d2, d1⟩ else "")
        else
          (if validDate y d1 d2 then renderMDY ⟨y, d1, d2⟩ else "")
      | none => ""

/-! ## Email extraction (`_extract_email`, src/main.py lines 74-86)

```python
def _extract_email(text: str) -> str:
    v = _extract_any(text, ("Email", "E-mail"))
    if v:
        v = re.sub(r"<mailto:.*?>", "", v, flags=re.I).strip()
        m = re.search(r"([A-Z0-9._%+-]+@[A-Z0-9.-]+\.[A-Z]{2,})", v, flags=re.I)
        return m.group(1) if m else v
    m = re.search(r"([A-Z0-9._%+-]+@[A-Z0-9.-]+\.[A-Z]{2,})", text, flags=re.I)
    return m.group(1) if m else ""
```
-/

/-- Character class `[A-Z0-9._%+-]` under `re.I`: the local part of the
email pattern. -/
def isLchar (c : Char) : Bool :=
  c.isAlpha || c.isDigit || c = '.' || c = '_' || c = '%' || c = '+' || c = '-'

/-- Character class `[A-Z0-9.-]` under `re.I`: the domain part. -/
def isDchar (c : Char) : Bool :=
  c.isAlpha || c.isDigit || c = '.' || c = '-'

/-- ASCII letter (`[A-Z]` under `re.I`). -/
def isAlphaChar (c : Char) : Bool := c.isAlpha

/-- Backtracking of the greedy `[A-Z0-9.-]+` against `\.[A-Z]{2,}`: find
the rightmost dot in the domain run that is followed by at least two
letters; the TLD is the maximal letter run after that dot.  A dot at the
head of the scanned run is admissible here (the caller supplies the run
minus its first character, so `[A-Z0-9.-]+` keeps at least one char). -/
def dotSplitR : List Char → Option (List Char × List Char)
  | [] => none
  | c :: rest =>
    match dotSplitR rest with
    | some (a, t) => some (c :: a, t)
    | none =>
      if c = '.' && (rest.takeWhile isAlphaChar).length ≥ 2 then
        some ([], rest.takeWhile isAlphaChar)
      else none

/-- Split a maximal domain run `drun` as `pre ++ "." ++ tld ++ junk` with
`pre` nonempty and `tld` a maximal letter run of length ≥ 2, choosing the
rightmost admissible dot (greedy `[A-Z0-9.-]+` backtracks from the
right). -/
def domainSplit : List Char → Option (List Char × List Char)
  | [] => none
  | c :: rest => (dotSplitR rest).map (fun p => (c :: p.1, p.2))

/-- Try the email pattern anchored at the head of `l`: a maximal `L`-run,
an `@`, then the backtracked domain.  (Since `@` is in neither class, the
greedy `L+` and the run decomposition are deterministic.) -/
def tryEmailAt (l : List Char) : Option (List Char) :=
  let run := l.takeWhile isLchar
  if run.isEmpty then none
  else
    match l.drop run.length with
    | '@' :: rest2 =>
      let drun := rest2.takeWhile isDchar
      match domainSplit drun with
      | some (pre, tld) => some (run ++ '@' :: (pre ++ '.' :: tld))
      | none => none
    | _ => none

/-- `re.search` for the email pattern: leftmost matching start position.
(A start inside an `L`-run matches exactly when the run's start does, so a
plain position-by-position scan returns the same match as the regex
engine.) -/
def findEmailList : List Char → Option (List Char)
  | [] => none
  | c :: rest =>
    match tryEmailAt (c :: rest) with
    | some m => some m
    | none => findEmailList rest

def findEmail (s : String) : Option String :=
  (findEmailList s.data).map (fun l => ⟨l⟩)

/-- `re.sub(r"<mailto:.*?>", "", v, flags=re.I)`: at a case-insensitive
`<mailto:` header, the lazy `.*?>` runs to the first `>` with no
intervening newline; matched stretches are deleted, everything else is
copied.  `fuel` (initialised to the list length, which bounds every
suffix reached) makes the skipping recursion structural. -/
def mailtoHeader : List Char := ['<', 'm', 'a', 'i', 'l', 't', 'o', ':']

def matchMailtoAt (l : List Char) : Option (List Char) :=
  match dropLabelCI mailtoHeader l with
  | none => none
  | some rest =>
    let body := rest.takeWhile (fun c => c ≠ '>' && c ≠ '\n')
    match rest.drop body.length with
    | '>' :: after => some after
    | _ => none

def stripMailtoGo : Nat → List Char → List Char
  | 0, l => l
  | _ + 1, [] => []
  | fuel + 1, c :: rest =>
    match matchMailtoAt (c :: rest) with
    | some after => stripMailtoGo fuel after
    | none => c :: stripMailtoGo fuel rest

def stripMailto (s : String) : String :=
  ⟨stripMailtoGo s.data.length s.data⟩

/-- The value found on an explicit `Email`/`E-mail` line. -/
def emailRaw (text : String) : String :=
  _extract_any text ["Email", "E-mail"]

/-- `_extract_email` from src/main.py. -/
def _extract_email (text : String) : String :=
  if emailRaw text ≠ "" then
    match findEmail (pyStrip (stripMailto (emailRaw text))) with
    | some e => e
    | none => pyStrip (stripMailto (emailRaw text))
  else
    match findEmail text with
    | some e => e
    | none => ""

/-! ## Phone, move size, truncation (src/main.py lines 89-97, 139-155) -/

/-- `_extract_phone` from src/main.py: digits of the labelled phone value,
with a leading US country code `1` stripped from an 11-digit number.  (The
final `if len(digits) >= 10` in the source returns `digits` in both
branches and is modelled as the identity it is.) -/
def _extract_phone (text : String) : String :=
  let v := _extract_any text ["Phone", "Phone number", "Telephone"]
  if v = "" then ""
  else
    let digits := v.data.filter Char.isDigit
    let digits := if digits.length = 11 && digits.head? = some '1' then digits.tail else digits
    if digits.length ≥ 10 then (⟨digits⟩ : String) else ⟨digits⟩

/-- First maximal digit run in the list (`re.search(r"(\d+)", b)`). -/
def firstDigitRun : List Char → Option (List Char)
  | [] => none
  | c :: rest =>
    if c.isDigit then some (c :: rest.takeWhile Char.isDigit)
    else firstDigitRun rest

def natOfDigits (l : List Char) : Nat :=
  l.foldl (fun a c => a * 10 + digitVal c) 0

/-- `_movesize_from_bedrooms` from src/main.py. -/
def _movesize_from_bedrooms (text : String) : String :=
  let b := pyStrip (_extract_any text ["Number of bedrooms", "Bedrooms", "Bed rooms"])
  if b = "" then ""
  else
    match firstDigitRun b.data with
    | none => ""
    | some ds =>
      let n := natOfDigits ds
      if n = 0 then "" else toString n ++ " bedroom"

/-- `_truncate` from src/main.py. -/
def _truncate (s : String) (max_len : Nat) : String :=
  let t := pyStrip s
  if t.length ≤ max_len then t else ⟨t.data.take max_len⟩

/-! ## `_build_granot_fields` (src/main.py lines 181-222) -/

structure GranotFields where
  firstname : String
  lastname : String
  email : String
  phone1 : String
  movedte : String
  ocity : String
  ostate : String
  ozip : String
  dcity : String
  dstate : String
  dzip : String
  movesize : String
  notes : String
deriving DecidableEq, Repr

/-- The `notes` blob: optional `Home type:` line, then the raw-email
marker and the normalized text, joined with newlines and stripped. -/
def buildNotes (t : String) : String :=
  let home_type := _extract_any t ["Home type", "Home Type"]
  let notes_parts :=
    (if home_type ≠ "" then ["Home type: " ++ home_type] else [])
      ++ ["---- RAW EMAIL TEXT ----" ++ "\n" ++ t]
  pyStrip (String.intercalate "\n" notes_parts)

/-- `_build_granot_fields` from src/main.py: normalizes the text, then
extracts every field. -/
def _build_granot_fields (text : String) : GranotFields :=
  let t := _norm_whitespace text
  { firstname := _extract_any t ["First name", "First Name"]
    lastname := _extract_any t ["Last name", "Last Name"]
    email := _extract_email t
    phone1 := _extract_phone t
    movedte := _parse_move_date t
    ocity := _extract_any t ["Origin city", "Origin City"]
    ostate := _extract_any t ["Origin state", "Origin State"]
    ozip := _extract_any t ["Origin zip", "Origin Zip", "Origin zipcode", "Origin Postal Code"]
    dcity := _extract_any t ["Moving city", "Moving City", "Destination city", "Destination City"]
    dstate := _extract_any t ["Moving state", "Moving State", "Destination state", "Destination State"]
    dzip := _extract_any t ["Moving zip", "Moving Zip", "Destination zip", "Destination Zip", "Destination zipcode"]
    movesize := _movesize_from_bedrooms t
    notes := buildNotes t }

/-! ## Python `int()` on strings

`int(tok)` strips surrounding whitespace, accepts an optional sign and a
nonempty ASCII digit sequence in which single underscores may appear
between two digits; anything else raises `ValueError` (modelled as
`none`). -/

def digitsUSGo (acc : Nat) : List Char → Option Nat
  | [] => some acc
  | '_' :: c :: rest =>
    if c.isDigit then digitsUSGo (acc * 10 + digitVal c) rest else none
  | ['_'] => none
  | c :: rest =>
    if c.isDigit then digitsUSGo (acc * 10 + digitVal c) rest else none

def digitsUS : List Char → Option Nat
  | [] => none
  | c :: rest => if c.isDigit then digitsUSGo (digitVal c) rest else none

def pyIntList : List Char → Option Int
  | '+' :: rest => (digitsUS rest).map (fun n => (n : Int))
  | '-' :: rest => (digitsUS rest).map (fun n => -(n : Int))
  | l => (digitsUS l).map (fun n => (n : Int))

def pyInt (s : String) : Option Int :=
  pyIntList (pyStripList s.data)

/-- `int(tok) if tok else default` under `try/except: default`: the empty
string and every unparsable string give the default. -/
def pyIntOr (tok : String) (default : Int) : Int :=
  if tok = "" then default else (pyInt tok).getD default

/-! ## `_parse_granot_response` (src/main.py lines 225-253)

```python
def _parse_granot_response(resp_text: str) -> Dict[str, Any]:
    raw = resp_text.strip()
    parts = [p.strip() for p in raw.split(",")]
    while len(parts) < 5:
        parts.append("")
    leadid, errid, msg, sold, match = parts[:5]
    ...
    try: out["leadid_int"] = int(leadid) if leadid else 0
    except Exception: out["leadid_int"] = 0
    try: out["errid_int"] = int(errid) if errid else -1
    except Exception: out["errid_int"] = -1
```
-/

structure GranotResp where
  leadid : String
  errid : String
  msg : String
  sold : String
  matchFld : String
  raw : String
  leadid_int : Int
  errid_int : Int
deriving DecidableEq, Repr

/-- Pad a token list with empty strings up to five positions. -/
def padTo5 (l : List String) : List String :=
  l ++ List.replicate (5 - l.length) ""

/-- `_parse_granot_response` from src/main.py.  (`matchFld` stands for the
source's `match`, a reserved word here.) -/
def _parse_granot_response (resp_text : String) : GranotResp :=
  let raw := pyStrip resp_text
  let parts := padTo5 ((pySplit ',' raw).map pyStrip)
  let leadid := parts.getD 0 ""
  let errid := parts.getD 1 ""
  { leadid := leadid
    errid := errid
    msg := parts.getD 2 ""
    sold := parts.getD 3 ""
    matchFld := parts.getD 4 ""
    raw := raw
    leadid_int := pyIntOr leadid 0
    errid_int := pyIntOr errid (-1) }

/-! ## The webhook handler `inbound_bronze_email` (src/main.py lines 265-371)

The handler is modelled up to its single suspension point (the outbound
HTTP post): `handleRequest` maps the decoded payload and the environment to
either a structured rejection or the URL and form fields that would be
posted; `interpretResponse` maps the endpoint's textual reply to the
verdict carried by the final JSON response. -/

/-- The decoded request payload: the values found under the accepted keys
(`text`, `Text`, `html`, `Html`, and the raw-body fallback `_raw`). -/
structure Payload where
  text : Option String := none
  textCap : Option String := none
  html : Option String := none
  htmlCap : Option String := none
  rawBody : Option String := none
deriving Repr

/-- `_pick_first_nonempty` from src/main.py: the first value whose
stripped form is non-empty, stripped. -/
def _pick_first_nonempty : List String → String
  | [] => ""
  | v :: rest => if pyStrip v ≠ "" then pyStrip v else _pick_first_nonempty rest

def pickRawText (p : Payload) : String :=
  _pick_first_nonempty
    [p.text.getD "", p.textCap.getD "", p.html.getD "", p.htmlCap.getD "", p.rawBody.getD ""]

/-- The environment variables read through `_env`. -/
structure Env where
  granot_api_id : Option String := none
  granot_moverref : Option String := none
  granot_url : Option String := none
  granot_servtypeid : Option String := none
  label_default : Option String := none
  consent_default : Option String := none
deriving Repr

/-- `_env` from src/main.py: the stripped value when it is set and
non-blank, else the default. -/
def envGet (v : Option String) (default : String) : String :=
  match v with
  | some s => if pyStrip s = "" then default else pyStrip s
  | none => default

/-- The form body of the outbound post. -/
structure PostFields where
  servtypeid : String
  firstname : String
  lastname : String
  email : String
  phone1 : String
  movedte : String
  ocity : String
  ostate : String
  ozip : String
  dcity : String
  dstate : String
  dzip : String
  movesize : String
  label : String
  notes : String
  consent : String
deriving DecidableEq, Repr

/-- Outcome of the handler up to the outbound post: one of the structured
rejections, or the URL and form fields of the post that is attempted. -/
inductive Outcome where
  | missingText : Outcome
  | rejected : Nat → String → GranotFields → Outcome
  | configError : String → Outcome
  | posted : String → PostFields → Outcome
deriving Repr

def msgMissingContact : String := "Missing email and phone after parsing."

def msgMissingMoveDate : String :=
  "Missing/invalid move date after parsing. Expecting Move date like 23/12/2025."

def assembledFields (p : Payload) : GranotFields :=
  _build_granot_fields (pickRawText p)

def buildPostFields (env : Env) (p : Payload) : PostFields :=
  { servtypeid := envGet env.granot_servtypeid "102"
    firstname := (assembledFields p).firstname
    lastname := (assembledFields p).lastname
    email := (assembledFields p).email
    phone1 := (assembledFields p).phone1
    movedte := (assembledFields p).movedte
    ocity := (assembledFields p).ocity
    ostate := (assembledFields p).ostate
    ozip := (assembledFields p).ozip
    dcity := (assembledFields p).dcity
    dstate := (assembledFields p).dstate
    dzip := (assembledFields p).dzip
    movesize := (assembledFields p).movesize
    label := _truncate (envGet env.label_default "Bronze Star Inbound Email") 20
    notes := (assembledFields p).notes
    consent := envGet env.consent_default "1" }

def postUrl (env : Env) : String :=
  let api_id := envGet env.granot_api_id ""
  let moverref := envGet env.granot_moverref ""
  let base_url := envGet env.granot_url "https://www.granot.com/LEADSGWHTTP.lidgw"
  base_url ++ "?API_ID=" ++ api_id
    ++ (if moverref ≠ "" then "&MOVERREF=" ++ moverref else "")

/-- `inbound_bronze_email` up to the outbound post (src/main.py lines
267-341): payload-text check, contact-method check, move-date check,
configuration check, then the post. -/
def handleRequest (env : Env) (p : Payload) : Outcome :=
  if pyStrip (pickRawText p) = "" then .missingText
  else if (assembledFields p).email = "" ∧ (assembledFields p).phone1 = "" then
    .rejected 422 msgMissingContact (assembledFields p)
  else if (assembledFields p).movedte = "" then
    .rejected 422 msgMissingMoveDate (assembledFields p)
  else if envGet env.granot_api_id "" = "" then
    .configError "GRANOT_API_ID env var missing."
  else
    .posted (postUrl env) (buildPostFields env p)

def Outcome.postedFields : Outcome → Option PostFields
  | .posted _ pf => some pf
  | _ => none

/-- The verdict carried by the handler's final JSON response (src/main.py
lines 345-371): `ok` is the success flag of the returned body, `warned`
records whether the distinct `errid=0, leadid=0` warning body was
returned. -/
structure PostReply where
  ok : Bool
  warned : Bool
deriving DecidableEq, Repr

/-- Lines 343-361: the reply text is stripped, parsed, and judged. -/
def interpretResponse (granot_text : String) : PostReply :=
  let parsed := _parse_granot_response (pyStrip granot_text)
  let ok := parsed.errid_int = 0 ∧ parsed.leadid_int > 0
  if parsed.errid_int = 0 ∧ parsed.leadid_int = 0 then ⟨false, true⟩
  else ⟨decide ok, false⟩

/-! ## Theorems -/

theorem replicate_getD (n i : Nat) (a : String) : (List.replicate n a).getD i a = a := by
  induction n generalizing i with
  | zero => simp [List.getD]
  | succ m ih =>
    cases i with
    | zero => simp [List.replicate]
    | succ j => simp [List.replicate, ih j]

theorem padTo5_getD_default (l : List String) (i : Nat) (hi : l.length ≤ i) :
    (padTo5 l).getD i "" = "" := by
  unfold padTo5
  rcases Nat.lt_or_ge i (l.length + (5 - l.length)) with h | h
  · rw [List.getD_eq_getElem?_getD, List.getElem?_append_right hi]
    have h2 := replicate_getD (5 - l.length) (i - l.length) ""
    rw [List.getD_eq_getElem?_getD] at h2
    exact h2
  · rw [List.getD_eq_getElem?_getD, List.getElem?_eq_none]
    · rfl
    · simpa using h

theorem pyInt_empty : pyInt "" = none := rfl

theorem pyIntOr_eq_getD (tok : String) (d : Int) : pyIntOr tok d = (pyInt tok).getD d := by
  unfold pyIntOr
  by_cases h : tok = ""
  · rw [if_pos h, h, pyInt_empty]
    rfl
  · rw [if_neg h]

/-- **C5**. The Response Interpreter splits the reply on commas, trims each
token, and pads to five positions with empty strings: with fewer than five
tokens the trailing named fields are empty; `leadid_int` is the parsed
integer of the first token and defaults to `0` when that token is absent
or unparsable; `errid_int` is the parsed integer of the second token and
defaults to `-1` (not `0`) when that token is absent or unparsable. -/
theorem granot_response_parse_defaults (s : String) :
    (∀ k : Int, pyInt (_parse_granot_response s).leadid = some k →
        (_parse_granot_response s).leadid_int = k) ∧
    (pyInt (_parse_granot_response s).leadid = none →
        (_parse_granot_response s).leadid_int = 0) ∧
    (∀ k : Int, pyInt (_parse_granot_response s).errid = some k →
        (_parse_granot_response s).errid_int = k) ∧
    (pyInt (_parse_granot_response s).errid = none →
        (_parse_granot_response s).errid_int = -1) ∧
    ((pySplit ',' (pyStrip s)).length ≤ 1 → (_parse_granot_response s).errid = "") ∧
    ((pySplit ',' (pyStrip s)).length ≤ 2 → (_parse_granot_response s).msg = "") ∧
    ((pySplit ',' (pyStrip s)).length ≤ 3 → (_parse_granot_response s).sold = "") ∧
    ((pySplit ',' (pyStrip s)).length ≤ 4 → (_parse_granot_response s).matchFld = "") := by
  have hlead : (_parse_granot_response s).leadid_int
      = pyIntOr (_parse_granot_response s).leadid 0 := rfl
  have herr : (_parse_granot_response s).errid_int
      = pyIntOr (_parse_granot_response s).errid (-1) := rfl
  have herrTok : (_parse_granot_response s).errid
      = (padTo5 ((pySplit ',' (pyStrip s)).map pyStrip)).getD 1 "" := rfl
  have hmsgTok : (_parse_granot_response s).msg
      = (padTo5 ((pySplit ',' (pyStrip s)).map pyStrip)).getD 2 "" := rfl
  have hsoldTok : (_parse_granot_response s).sold
      = (padTo5 ((pySplit ',' (pyStrip s)).map pyStrip)).getD 3 "" := rfl
  have hmatchTok : (_parse_granot_response s).matchFld
      = (padTo5 ((pySplit ',' (pyStrip s)).map pyStrip)).getD 4 "" := rfl
  refine ⟨?_, ?_, ?_, ?_, ?_, ?_, ?_, ?_⟩
  · intro k hk
    rw [hlead, pyIntOr_eq_getD, hk]
    rfl
  · intro hk
    rw [hlead, pyIntOr_eq_getD, hk]
    rfl
  · intro k hk
    rw [herr, pyIntOr_eq_getD, hk]
    rfl
  · intro hk
    rw [herr, pyIntOr_eq_getD, hk]
    rfl
  · intro h
    rw [herrTok]
    exact padTo5_getD_default _ 1 (by rw [List.length_map]; omega)
  · intro h
    rw [hmsgTok]
    exact padTo5_getD_default _ 2 (by rw [List.length_map]; omega)
  · intro h
    rw [hsoldTok]
    exact padTo5_getD_default _ 3 (by rw [List.length_map]; omega)
  · intro h
    rw [hmatchTok]
    exact padTo5_getD_default _ 4 (by rw [List.length_map]; omega)

/-- Witness for C5 at the one-token reply `"7"`: the first token parses to
`7`, the second token is absent, so `errid` pads to `""` and `errid_int`
defaults to `-1`. -/
theorem granot_response_parse_defaults_witness :
    (_parse_granot_response "7").leadid_int = 7 ∧
    (_parse_granot_response "7").errid = "" ∧
    (_parse_granot_response "7").errid_int = -1 :=
  ⟨(granot_response_parse_defaults "7").1 7 (by rfl),
   (granot_response_parse_defaults "7").2.2.2.2.1 (by decide),
   (granot_response_parse_defaults "7").2.2.2.1 (by rfl)⟩

/-- **C4**. The success verdict of the final response is `true` exactly
when the parsed `errid` is `0` and the parsed `leadid` is strictly
positive; the degenerate reply `errid = 0, leadid = 0` is surfaced through
the distinct warning body (with its success flag `false`), not through the
generic body. -/
theorem success_verdict_iff (s : String) :
    (((interpretResponse s).ok = true) ↔
      ((_parse_granot_response (pyStrip s)).errid_int = 0 ∧
       (_parse_granot_response (pyStrip s)).leadid_int > 0)) ∧
    (((interpretResponse s).warned = true) ↔
      ((_parse_granot_response (pyStrip s)).errid_int = 0 ∧
       (_parse_granot_response (pyStrip s)).leadid_int = 0)) ∧
    ((interpretResponse s).warned = true → (interpretResponse s).ok = false) := by
  by_cases h : (_parse_granot_response (pyStrip s)).errid_int = 0 ∧
      (_parse_granot_response (pyStrip s)).leadid_int = 0
  · have hng : ¬ (_parse_granot_response (pyStrip s)).leadid_int > 0 := by omega
    simp [interpretResponse, h, hng, h.2]
  · simp [interpretResponse, h]

/-- Witness for C4 at the two replies of the specification: a positive
lead id is a success, the degenerate `0,0,,0,0` reply is the distinct
warning with success flag `false`. -/
theorem success_verdict_iff_witness :
    (interpretResponse "104360,0,OK,6,6").ok = true ∧
    (interpretResponse "0,0,,0,0").ok = false ∧
    (interpretResponse "0,0,,0,0").warned = true :=
  ⟨((success_verdict_iff "104360,0,OK,6,6").1).mpr (by refine ⟨by rfl, by decide⟩),
   (success_verdict_iff "0,0,,0,0").2.2 (by rfl),
   ((success_verdict_iff "0,0,,0,0").2.1).mpr (by refine ⟨by rfl, by rfl⟩)⟩

theorem pyStrip_idem (s : String) : pyStrip (pyStrip s) = pyStrip s := by
  show (⟨pyStripList (pyStripList s.data)⟩ : String) = ⟨pyStripList s.data⟩
  rw [pyStripList_idem]

theorem pick_first_nonempty_stable :
    ∀ l : List String, pyStrip (_pick_first_nonempty l) = _pick_first_nonempty l := by
  intro l
  induction l with
  | nil => rfl
  | cons v rest ih =>
    by_cases h : pyStrip v ≠ ""
    · simp only [_pick_first_nonempty, if_pos h]
      exact pyStrip_idem v
    · simp only [_pick_first_nonempty, if_neg h]
      exact ih

theorem pickRawText_stable (p : Payload) : pyStrip (pickRawText p) = pickRawText p :=
  pick_first_nonempty_stable _

/-- Concrete environment for the C2 counterexample: only the account id is
configured. -/
def envC2 : Env := { granot_api_id := some "A" }

/-- Concrete payload for the C2 counterexample: a lead with an email and a
move date but no state lines at all. -/
def payloadC2 : Payload := { text := some "Email: a@b.co\nMove date: 23/12/2025" }

set_option maxRecDepth 100000 in
/-- **C2** counterexample.  The assembled record has empty `ostate` and
empty `dstate`, yet the handler does not reject: it reaches the outbound
post.  This refutes the claim that non-empty `ostate` and `dstate` are a
precondition for posting. -/
theorem states_not_required_cex :
    (assembledFields payloadC2).ostate = "" ∧
    (assembledFields payloadC2).dstate = "" ∧
    (handleRequest envC2 payloadC2).postedFields.isSome = true :=
  ⟨rfl, rfl, rfl⟩

/-- **C2** (amended).  The gate in front of the outbound post checks only
the presence of extractable text, a contact method (email or phone), the
move date, and the configured account id: the post is attempted exactly
when these four hold, with no condition on `ostate`/`dstate`. -/
theorem post_gate_characterization (env : Env) (p : Payload) :
    (∃ url pf, handleRequest env p = Outcome.posted url pf) ↔
      (pickRawText p ≠ "" ∧
       ((assembledFields p).email ≠ "" ∨ (assembledFields p).phone1 ≠ "") ∧
       (assembledFields p).movedte ≠ "" ∧
       envGet env.granot_api_id "" ≠ "") := by
  simp only [handleRequest, pickRawText_stable p]
  by_cases h1 : pickRawText p = ""
  · simp only [if_pos h1]
    constructor
    · rintro ⟨url, pf, h⟩
      exact Outcome.noConfusion h
    · rintro ⟨hne, -⟩
      exact absurd h1 hne
  · simp only [if_neg h1]
    by_cases h2 : (assembledFields p).email = "" ∧ (assembledFields p).phone1 = ""
    · simp only [if_pos h2]
      constructor
      · rintro ⟨url, pf, h⟩
        exact Outcome.noConfusion h
      · rintro ⟨-, hcontact, -⟩
        rcases hcontact with hc | hc
        · exact absurd h2.1 hc
        · exact absurd h2.2 hc
    · simp only [if_neg h2]
      by_cases h3 : (assembledFields p).movedte = ""
      · simp only [if_pos h3]
        constructor
        · rintro ⟨url, pf, h⟩
          exact Outcome.noConfusion h
        · rintro ⟨-, -, hmv, -⟩
          exact absurd h3 hmv
      · simp only [if_neg h3]
        by_cases h4 : envGet env.granot_api_id "" = ""
        · simp only [if_pos h4]
          constructor
          · rintro ⟨url, pf, h⟩
            exact Outcome.noConfusion h
          · rintro ⟨-, -, -, hapi⟩
            exact absurd h4 hapi
        · simp only [if_neg h4]
          constructor
          · intro _
            refine ⟨h1, ?_, h3, h4⟩
            by_contra hcon
            push_neg at hcon
            exact h2 ⟨hcon.1, hcon.2⟩
          · intro _
            exact ⟨postUrl env, buildPostFields env p, rfl⟩

set_option maxRecDepth 100000 in
/-- Witness for C2's amended characterization: on `payloadC2` (no states)
all four gate conditions hold and the post is attempted. -/
theorem post_gate_characterization_witness :
    ∃ url pf, handleRequest envC2 payloadC2 = Outcome.posted url pf :=
  (post_gate_characterization envC2 payloadC2).mpr
    ⟨by decide, Or.inl (by decide), by decide, by decide⟩

/-- Concrete environment for the C3 counterexample: account id set, no
`GRANOT_SERVTYPEID` configured. -/
def envC3 : Env := { granot_api_id := some "A" }

/-- Concrete payload for the C3 counterexample: equal origin and
destination states. -/
def payloadC3 : Payload :=
  { text := some "Email: a@b.co\nMove date: 23/12/2025\nOrigin state: OH\nMoving state: OH" }

set_option maxRecDepth 100000 in
/-- **C3** counterexample.  Origin and destination state are both `"OH"`
(equal, non-empty), yet the posted `servtypeid` is `"102"`, not the
claimed local code `"101"`: the field comes from configuration, not from
the states. -/
theorem servtypeid_not_state_derived_cex :
    (assembledFields payloadC3).ostate = "OH" ∧
    (assembledFields payloadC3).dstate = "OH" ∧
    (handleRequest envC3 payloadC3).postedFields.map PostFields.servtypeid = some "102" :=
  ⟨rfl, rfl, rfl⟩

/-- **C3** (amended).  Whenever a post is attempted, its `servtypeid` is
the configured `GRANOT_SERVTYPEID` value (default `"102"`), independent of
the extracted states. -/
theorem servtypeid_from_config (env : Env) (p : Payload) (url : String) (pf : PostFields)
    (h : handleRequest env p = Outcome.posted url pf) :
    pf.servtypeid = envGet env.granot_servtypeid "102" := by
  simp only [handleRequest] at h
  split at h
  · exact Outcome.noConfusion h
  split at h
  · exact Outcome.noConfusion h
  split at h
  · exact Outcome.noConfusion h
  split at h
  · exact Outcome.noConfusion h
  cases h
  rfl

set_option maxRecDepth 100000 in
/-- Witness for C3's amended theorem at a concrete posted request. -/
theorem servtypeid_from_config_witness :
    (buildPostFields envC3 payloadC3).servtypeid = envGet envC3.granot_servtypeid "102" :=
  servtypeid_from_config envC3 payloadC3 (postUrl envC3) (buildPostFields envC3 payloadC3) rfl

theorem truncate_length_le (s : String) (n : Nat) : (_truncate s n).length ≤ n := by
  unfold _truncate
  by_cases h : (pyStrip s).length ≤ n
  · rw [if_pos h]
    exact h
  · rw [if_neg h]
    show ((pyStrip s).data.take n).length ≤ n
    rw [List.length_take]
    omega

/-- Concrete environment for the C9 counterexample. -/
def envC9 : Env := { granot_api_id := some "A" }

/-- Concrete payload for the C9 counterexample: a 31-character first
name. -/
def payloadC9 : Payload :=
  { text := some "First name: Abcdefghijklmnopqrstuvwxyzabcde\nEmail: a@b.co\nMove date: 23/12/2025" }

set_option maxRecDepth 400000 in
set_option maxHeartbeats 2000000 in
/-- **C9** counterexample.  The posted `firstname` keeps all 31 characters
of the extracted value, exceeding the documented 30-character cap: no
truncation is applied to it during assembly. -/
theorem field_truncation_cex :
    (handleRequest envC9 payloadC9).postedFields.map
      (fun pf => pf.firstname.length) = some 31 :=
  rfl

set_option maxHeartbeats 2000000 in
/-- **C9** (amended).  Of the textual fields of the posted record, only
`label` is truncated (to 20 characters, via `_truncate`); every other
assembled field is passed through unchanged at its extracted length, so on
every posted request the label is at most 20 characters while `firstname`,
`lastname`, `email`, `phone1`, `movedte`, `ocity`, `ostate`, `ozip`,
`dcity`, `dstate`, `dzip`, `movesize` and `notes` are exactly the
assembled fields, whatever their lengths. -/
theorem label_truncated_only (env : Env) (p : Payload) (url : String) (pf : PostFields)
    (h : handleRequest env p = Outcome.posted url pf) :
    pf.label.length ≤ 20 ∧
    pf.firstname = (assembledFields p).firstname ∧
    pf.lastname = (assembledFields p).lastname ∧
    pf.email = (assembledFields p).email ∧
    pf.phone1 = (assembledFields p).phone1 ∧
    pf.movedte = (assembledFields p).movedte ∧
    pf.ocity = (assembledFields p).ocity ∧
    pf.ostate = (assembledFields p).ostate ∧
    pf.ozip = (assembledFields p).ozip ∧
    pf.dcity = (assembledFields p).dcity ∧
    pf.dstate = (assembledFields p).dstate ∧
    pf.dzip = (assembledFields p).dzip ∧
    pf.movesize = (assembledFields p).movesize ∧
    pf.notes = (assembledFields p).notes := by
  simp only [handleRequest] at h
  split at h
  · exact Outcome.noConfusion h
  split at h
  · exact Outcome.noConfusion h
  split at h
  · exact Outcome.noConfusion h
  split at h
  · exact Outcome.noConfusion h
  cases h
  refine ⟨truncate_length_le _ 20, ?_, ?_, ?_, ?_, ?_, ?_, ?_, ?_, ?_, ?_, ?_, ?_, ?_⟩ <;>
    simp only [buildPostFields]

set_option maxRecDepth 400000 in
set_option maxHeartbeats 2000000 in
/-- Witness for C9's amended theorem at a concrete posted request. -/
theorem label_truncated_only_witness :
    (buildPostFields envC9 payloadC9).label.length ≤ 20 ∧
    (buildPostFields envC9 payloadC9).firstname = (assembledFields payloadC9).firstname ∧
    (buildPostFields envC9 payloadC9).lastname = (assembledFields payloadC9).lastname ∧
    (buildPostFields envC9 payloadC9).email = (assembledFields payloadC9).email ∧
    (buildPostFields envC9 payloadC9).phone1 = (assembledFields payloadC9).phone1 ∧
    (buildPostFields envC9 payloadC9).movedte = (assembledFields payloadC9).movedte ∧
    (buildPostFields envC9 payloadC9).ocity = (assembledFields payloadC9).ocity ∧
    (buildPostFields envC9 payloadC9).ostate = (assembledFields payloadC9).ostate ∧
    (buildPostFields envC9 payloadC9).ozip = (assembledFields payloadC9).ozip ∧
    (buildPostFields envC9 payloadC9).dcity = (assembledFields payloadC9).dcity ∧
    (buildPostFields envC9 payloadC9).dstate = (assembledFields payloadC9).dstate ∧
    (buildPostFields envC9 payloadC9).dzip = (assembledFields payloadC9).dzip ∧
    (buildPostFields envC9 payloadC9).movesize = (assembledFields payloadC9).movesize ∧
    (buildPostFields envC9 payloadC9).notes = (assembledFields payloadC9).notes :=
  label_truncated_only envC9 payloadC9 (postUrl envC9) (buildPostFields envC9 payloadC9) rfl

/-- **C10**.  The contact-method check precedes the move-date check: a
request whose assembled record has empty `email`, empty `phone1` (and
regardless of `movedte`) is rejected with status 422 and the
missing-contact error, echoing the parsed record; and the
missing-move-date rejection can only be returned when at least one
contact field is non-empty. -/
theorem validation_order_contact_first :
    (∀ (env : Env) (p : Payload),
      pickRawText p ≠ "" →
      (assembledFields p).email = "" →
      (assembledFields p).phone1 = "" →
      handleRequest env p = Outcome.rejected 422 msgMissingContact (assembledFields p)) ∧
    (∀ (env : Env) (p : Payload) (fields : GranotFields),
      handleRequest env p = Outcome.rejected 422 msgMissingMoveDate fields →
      fields.email ≠ "" ∨ fields.phone1 ≠ "") := by
  constructor
  · intro env p h1 he hp
    unfold handleRequest
    rw [pickRawText_stable p, if_neg h1, if_pos ⟨he, hp⟩]
  · intro env p fields h
    simp only [handleRequest] at h
    split at h
    · exact Outcome.noConfusion h
    split at h
    · -- the missing-contact branch carries a different message
      have hmsg : msgMissingContact = msgMissingMoveDate := by
        injection h
      exact absurd hmsg (by decide)
    split at h
    · -- the missing-move-date branch: the contact check already failed to fire
      next hcontact _ =>
        have hfields : assembledFields p = fields := by
          injection h
        by_contra hcon
        push_neg at hcon
        rw [← hfields] at hcon
        exact hcontact ⟨hcon.1, hcon.2⟩
    split at h
    · exact Outcome.noConfusion h
    · exact Outcome.noConfusion h

/-- Concrete payload for the C10 witness: no contact data at all. -/
def payloadC10a : Payload := { text := some "hello world" }

/-- Concrete payload for the C10 witness: an email but no move date. -/
def payloadC10b : Payload := { text := some "Email: a@b.co" }

set_option maxRecDepth 400000 in
set_option maxHeartbeats 2000000 in
/-- Witness for C10: the contact-less request is rejected with the
missing-contact error even though its move date is also missing, and a
request rejected for a missing move date has a non-empty contact field. -/
theorem validation_order_contact_first_witness :
    handleRequest envC9 payloadC10a
      = Outcome.rejected 422 msgMissingContact (assembledFields payloadC10a) ∧
    ((assembledFields payloadC10b).email ≠ "" ∨ (assembledFields payloadC10b).phone1 ≠ "") :=
  ⟨validation_order_contact_first.1 envC9 payloadC10a (by decide) rfl rfl,
   validation_order_contact_first.2 envC9 payloadC10b (assembledFields payloadC10b) rfl⟩

theorem strptime_dmY_valid (s : String) (d : Date) (h : strptime_dmY s = some d) :
    validDate d.y d.m d.d = true := by
  unfold strptime_dmY at h
  split at h
  · split at h
    · split at h
      · cases h
        assumption
      · exact Option.noConfusion h
    · exact Option.noConfusion h
  · exact Option.noConfusion h

theorem strptime_mdY_valid (s : String) (d : Date) (h : strptime_mdY s = some d) :
    validDate d.y d.m d.d = true := by
  unfold strptime_mdY at h
  split at h
  · split at h
    · split at h
      · cases h
        assumption
      · exact Option.noConfusion h
    · exact Option.noConfusion h
  · exact Option.noConfusion h

theorem strptime_Ymd_valid (s : String) (d : Date) (h : strptime_Ymd s = some d) :
    validDate d.y d.m d.d = true := by
  unfold strptime_Ymd at h
  split at h
  · split at h
    · split at h
      · cases h
        assumption
      · exact Option.noConfusion h
    · exact Option.noConfusion h
  · exact Option.noConfusion h

theorem tryFormats_valid (s : String) (d : Date) (h : tryFormats s = some d) :
    validDate d.y d.m d.d = true := by
  unfold tryFormats at h
  split at h
  · cases h
    exact strptime_dmY_valid s _ (by assumption)
  · split at h
    · cases h
      exact strptime_mdY_valid s _ (by assumption)
    · exact strptime_Ymd_valid s d h

/-- **C7**.  For a labelled move-date value the strict templates are tried
in the fixed order DD/MM/YYYY, MM/DD/YYYY, YYYY/MM/DD on the
dot/dash/whitespace-normalized value, the first that yields a valid
calendar date wins; and on every input the transformer's result is either
the empty string or a valid calendar date rendered as MM/DD/YYYY — never
an exception, never any other shape. -/
theorem moveDate_template_order_and_format :
    (∀ text : String, moveDateRaw text ≠ "" →
      (∀ d, strptime_dmY (normalizeDateRaw (moveDateRaw text)) = some d →
        _parse_move_date text = renderMDY d) ∧
      (strptime_dmY (normalizeDateRaw (moveDateRaw text)) = none →
        ∀ d, strptime_mdY (normalizeDateRaw (moveDateRaw text)) = some d →
          _parse_move_date text = renderMDY d) ∧
      (strptime_dmY (normalizeDateRaw (moveDateRaw text)) = none →
        strptime_mdY (normalizeDateRaw (moveDateRaw text)) = none →
        ∀ d, strptime_Ymd (normalizeDateRaw (moveDateRaw text)) = some d →
          _parse_move_date text = renderMDY d)) ∧
    (∀ text : String, _parse_move_date text = "" ∨
      ∃ d : Date, validDate d.y d.m d.d = true ∧ _parse_move_date text = renderMDY d) := by
  constructor
  · intro text hne
    refine ⟨?_, ?_, ?_⟩
    · intro d hd
      unfold _parse_move_date
      rw [if_neg hne]
      unfold tryFormats
      rw [hd]
    · intro h1 d hd
      unfold _parse_move_date
      rw [if_neg hne]
      unfold tryFormats
      rw [h1, hd]
    · intro h1 h2 d hd
      unfold _parse_move_date
      rw [if_neg hne]
      unfold tryFormats
      rw [h1, h2, hd]
  · intro text
    unfold _parse_move_date
    by_cases hne : moveDateRaw text = ""
    · rw [if_pos hne]
      exact Or.inl rfl
    · rw [if_neg hne]
      cases htf : tryFormats (normalizeDateRaw (moveDateRaw text)) with
      | some d =>
        exact Or.inr ⟨d, tryFormats_valid _ d htf, rfl⟩
      | none =>
        cases hfd : findDateTok text.data with
        | none => exact Or.inl rfl
        | some t =>
          obtain ⟨d1, d2, y⟩ := t
          by_cases hgt : d1 > 12
          · by_cases hv : validDate y d2 d1 = true
            · refine Or.inr ⟨⟨y, d2, d1⟩, hv, ?_⟩
              simp [hgt, hv]
            · refine Or.inl ?_
              simp [hgt, hv]
          · by_cases hv : validDate y d1 d2 = true
            · refine Or.inr ⟨⟨y, d1, d2⟩, hv, ?_⟩
              simp [hgt, hv]
            · refine Or.inl ?_
              simp [hgt, hv]

set_option maxRecDepth 100000 in
/-- Witness for C7 at the specification's own vector: the labelled value
`23/12/2025` parses under the first template DD/MM/YYYY and is rendered as
`12/23/2025`. -/
theorem moveDate_template_order_witness :
    _parse_move_date "Move date: 23/12/2025" = "12/23/2025" :=
  (moveDate_template_order_and_format.1 "Move date: 23/12/2025" (by decide)).1
    ⟨2025, 12, 23⟩ (by rfl)

set_option maxRecDepth 100000 in
/-- **C1** counterexample.  The text carries no move-date label but does
contain the token `23/12/2025` (whose first number 23 exceeds 12 and which
forms a valid date); the claim says the last-resort scan fires and returns
`12/23/2025`, but `_parse_move_date` returns the empty string: the scan is
unreachable without a label. -/
theorem moveDate_noLabel_cex :
    moveDateRaw "Please arrive 23/12/2025" = "" ∧
    findDateTok ("Please arrive 23/12/2025" : String).data = some (23, 12, 2025) ∧
    validDate 2025 12 23 = true ∧
    _parse_move_date "Please arrive 23/12/2025" = "" ∧
    _parse_move_date "Please arrive 23/12/2025" ≠ "12/23/2025" :=
  ⟨rfl, rfl, by decide, rfl, by decide⟩

/-- **C1** (amended).  When no move-date label yields a value the
transformer returns the empty string without scanning the text; the
last-resort scan runs only when a labelled value exists but fails all
three strict templates, and then a first `d/m/yyyy`-shaped token whose
first number exceeds 12 produces the valid date rendered MM/DD/YYYY with
that first number as the day. -/
theorem moveDate_lastResort_after_label_fail :
    (∀ text : String, moveDateRaw text = "" → _parse_move_date text = "") ∧
    (∀ (text : String) (d1 d2 y : Nat),
      moveDateRaw text ≠ "" →
      tryFormats (normalizeDateRaw (moveDateRaw text)) = none →
      findDateTok text.data = some (d1, d2, y) →
      d1 > 12 →
      validDate y d2 d1 = true →
      _parse_move_date text = renderMDY ⟨y, d2, d1⟩) := by
  constructor
  · intro text h
    unfold _parse_move_date
    rw [if_pos h]
  · intro text d1 d2 y hne htf hfd hgt hv
    unfold _parse_move_date
    rw [if_neg hne, htf, hfd]
    simp [hgt, hv]

set_option maxRecDepth 100000 in
/-- Witness for C1's amended theorem: a labelled value (`soon`) that fails
every template, with `23/12/2025` elsewhere in the text, yields
`12/23/2025`; and a label-less text yields the empty string. -/
theorem moveDate_lastResort_witness :
    _parse_move_date "Move date: soon\nWindow 23/12/2025 ok" = "12/23/2025" ∧
    _parse_move_date "hello" = "" :=
  ⟨moveDate_lastResort_after_label_fail.2 "Move date: soon\nWindow 23/12/2025 ok" 23 12 2025
      (by decide) (by rfl) (by rfl) (by decide) (by decide),
   moveDate_lastResort_after_label_fail.1 "hello" (by rfl)⟩

set_option maxRecDepth 100000 in
/-- **C6** counterexample.  The text has an explicit `Email:` line whose
value `call me maybe` contains no email-shaped token, while `jane@x.com`
appears later in the text; the claim says the extractor falls back to
`jane@x.com`, but it returns the labelled value `call me maybe`. -/
theorem email_label_value_kept_cex :
    emailRaw "Email: call me maybe\nReach jane@x.com now" = "call me maybe" ∧
    findEmail "call me maybe" = none ∧
    findEmail "Email: call me maybe\nReach jane@x.com now" = some "jane@x.com" ∧
    _extract_email "Email: call me maybe\nReach jane@x.com now" = "call me maybe" :=
  ⟨rfl, rfl, rfl, rfl⟩

/-- **C6** (amended).  When the `Email`/`E-mail` labelled value is
non-empty but (after mailto-stripping) contains no email-shaped token, the
extractor returns that mailto-stripped labelled value itself; the
whole-text fallback to the first email-shaped token is used only when no
labelled line yields a non-empty value (and gives the empty string when
the text has no email-shaped token at all). -/
theorem email_fallback_only_without_label :
    (∀ text : String, emailRaw text ≠ "" →
      findEmail (pyStrip (stripMailto (emailRaw text))) = none →
      _extract_email text = pyStrip (stripMailto (emailRaw text))) ∧
    (∀ text : String, emailRaw text = "" →
      _extract_email text = (findEmail text).getD "") := by
  constructor
  · intro text hne hnone
    unfold _extract_email
    rw [if_pos hne, hnone]
  · intro text h
    unfold _extract_email
    rw [if_neg (fun hc => hc h)]
    cases hfe : findEmail text <;> simp [hfe]

set_option maxRecDepth 100000 in
/-- Witness for C6's amended theorem: a labelled non-email value is kept
as-is, and without any labelled line the first email-shaped token of the
text is used. -/
theorem email_fallback_only_witness :
    _extract_email "Email: call me tomorrow" =
      pyStrip (stripMailto (emailRaw "Email: call me tomorrow")) ∧
    _extract_email "write jane@x.com soon" = (findEmail "write jane@x.com soon").getD "" :=
  ⟨email_fallback_only_without_label.1 "Email: call me tomorrow" (by decide) (by rfl),
   email_fallback_only_without_label.2 "write jane@x.com soon" (by rfl)⟩
